import Mathlib

/-!
Shallow embedding of `src/index.js` of the auto-post-cron repository.

The program is a scheduled content-generation bot.  Its pure helpers
(`generateSlug`, `generateProblemExplanation`, the prompt list and the
prompt selection expression) are translated directly.  The side-effecting
steps (`generateCodeSnippet`, `createSanityPost`, `uploadImageToSanity`)
are translated into pure functions over an explicit environment
`PipelineEnv` that carries the outcomes of the external calls
(OpenAI completion, image fetch, asset upload) together with the
ambient values the code reads (`Math.random()`, the current date strings,
the uuid, configured reference ids).  A pipeline invocation returns the
document passed to the content store's `create` call, or `none` when the
invocation aborts before that call.

JavaScript specifics modelled explicitly:
  - `String.prototype.toLowerCase` is modelled on the ASCII range
    (table `asciiLowerMap`); no character lowercases to an uppercase
    ASCII letter, so the lowercase-ness results transfer.
  - the regex class `\s` and `String.prototype.trim` use the JS
    whitespace set `jsWhitespaceChars`.
  - `\w` is `[A-Za-z0-9_]` (`isWordChar`).
  - `explanationMapping[prompt]` is JS bracket access on an object
    literal: an own key yields its mapped string, and otherwise the
    prototype chain is consulted, so a key naming an inherited
    `Object.prototype` member (such as `toString`) yields that truthy
    member rather than `undefined`.
  - the JS `||` fallback in `generateProblemExplanation` treats the empty
    string as falsy, and is modelled as such.
  - `encodeURIComponent` percent-encodes the UTF-8 bytes of every
    character outside its unreserved set.
-/

/-- The set of characters matched by the JS regex class `\s` (and trimmed
by `String.prototype.trim`): tab, vertical tab, form feed, space, NBSP,
BOM, line terminators, and the Unicode `Zs` spaces. -/
def jsWhitespaceChars : List Char :=
  ['\t', '\u000B', '\u000C', ' ', ' ', '﻿', '\n', '\r',
   ' ', ' ', ' ', ' ', ' ', ' ', ' ',
   ' ', ' ', ' ', ' ', ' ', ' ', ' ',
   ' ', ' ', '　']

/-- Whether a character is JS whitespace (regex `\s`). -/
def isJsWhitespace (c : Char) : Bool := jsWhitespaceChars.contains c

/-- ASCII model of `String.prototype.toLowerCase`, as a lookup table
from each uppercase ASCII letter to its lowercase form. -/
def asciiLowerMap : List (Char × Char) :=
  [('A', 'a'), ('B', 'b'), ('C', 'c'), ('D', 'd'), ('E', 'e'), ('F', 'f'),
   ('G', 'g'), ('H', 'h'), ('I', 'i'), ('J', 'j'), ('K', 'k'), ('L', 'l'),
   ('M', 'm'), ('N', 'n'), ('O', 'o'), ('P', 'p'), ('Q', 'q'), ('R', 'r'),
   ('S', 's'), ('T', 't'), ('U', 'u'), ('V', 'v'), ('W', 'w'), ('X', 'x'),
   ('Y', 'y'), ('Z', 'z')]

/-- Per-character lowercasing used by `title.toLowerCase()`. -/
def jsCharToLower (c : Char) : Char := (asciiLowerMap.lookup c).getD c

/-- The uppercase ASCII letters: the characters `toLowerCase` changes. -/
def asciiUpperChars : List Char := asciiLowerMap.map Prod.fst

/-- The JS regex class `\w`: `[A-Za-z0-9_]`. -/
def isWordChar (c : Char) : Bool :=
  (decide ('a' ≤ c) && decide (c ≤ 'z')) ||
  (decide ('A' ≤ c) && decide (c ≤ 'Z')) ||
  (decide ('0' ≤ c) && decide (c ≤ '9')) ||
  (c == '_')

/-- Characters kept by `.replace(/[^\w-]+/g, '')`: word characters and
the hyphen. -/
def isSlugKeep (c : Char) : Bool := isWordChar c || c == '-'

/-- `.replace(/\s+/g, '-')`: each maximal run of whitespace characters is
replaced by a single hyphen.  The boolean argument records whether the
previous character was part of a whitespace run. -/
def collapseWsAux : List Char → Bool → List Char
  | [], _ => []
  | c :: rest, prevWs =>
    if isJsWhitespace c then
      if prevWs then collapseWsAux rest true
      else '-' :: collapseWsAux rest true
    else c :: collapseWsAux rest false

/-- `const generateSlug = (title) =>
  title.toLowerCase().replace(/\s+/g, '-').replace(/[^\w-]+/g, '');`
(src/index.js line 23). -/
def generateSlug (title : String) : String :=
  String.mk ((collapseWsAux (title.data.map jsCharToLower) false).filter isSlugKeep)

/-- `String.prototype.trim`: strips JS whitespace from both ends. -/
def jsTrim (s : String) : String :=
  String.mk (((s.data.dropWhile isJsWhitespace).reverse.dropWhile isJsWhitespace).reverse)

/-- `const promptList = [...]` (src/index.js lines 26-38). -/
def promptList : List String :=
  ["Write a JavaScript function to reverse a string.",
   "Generate a Python script that reads a CSV file and prints the contents.",
   "Create an HTML page with a simple form and a submit button.",
   "Write a CSS rule that creates a hover effect for buttons.",
   "Generate a JavaScript snippet for handling form validation.",
   "Write a Python script that calculates the factorial of a number.",
   "Create a basic Node.js Express server with one route.",
   "Generate a JavaScript code snippet for async/await function handling.",
   "Write a function in JavaScript to calculate Fibonacci numbers.",
   "Create a batch script to automate file backups."]

/-- The `explanationMapping` object literal inside
`generateProblemExplanation` (src/index.js lines 142-154). -/
def explanationMapping : List (String × String) :=
  [("Write a JavaScript function to reverse a string.", "reverse a string"),
   ("Generate a Python script that reads a CSV file and prints the contents.",
    "read and print contents of a CSV file"),
   ("Create an HTML page with a simple form and a submit button.",
    "create a form for user input"),
   ("Write a CSS rule that creates a hover effect for buttons.",
    "add hover effects to buttons"),
   ("Generate a JavaScript snippet for handling form validation.",
    "validate user input in a form"),
   ("Write a Python script that calculates the factorial of a number.",
    "calculate the factorial of a number"),
   ("Create a basic Node.js Express server with one route.",
    "set up a basic web server"),
   ("Generate a JavaScript code snippet for async/await function handling.",
    "handle asynchronous operations in JavaScript"),
   ("Write a function in JavaScript to calculate Fibonacci numbers.",
    "calculate Fibonacci numbers"),
   ("Create a batch script to automate file backups.",
    "automate file backups using a batch script")]

/-- The property keys every plain object literal inherits from
`Object.prototype`: eleven native functions plus the `__proto__`
accessor.  Bracket access on `explanationMapping` finds these through the
prototype chain even though they are not own keys of the literal, and all
of their values are truthy. -/
def objectPrototypeKeys : List String :=
  ["constructor", "hasOwnProperty", "isPrototypeOf", "propertyIsEnumerable",
   "toLocaleString", "toString", "valueOf", "__defineGetter__",
   "__defineSetter__", "__lookupGetter__", "__lookupSetter__", "__proto__"]

/-- A value JS bracket access on the mapping object can produce: one of
the literal's own string values, or a member inherited from
`Object.prototype`, identified here by its property name (a native
function, or the object the `__proto__` accessor yields). -/
inductive JsValue where
  | str (s : String)
  | protoMember (name : String)
deriving DecidableEq

/-- JS truthiness of such a value: a string is falsy exactly when it is
empty; every inherited `Object.prototype` member (a function or a
non-null object) is truthy. -/
def JsValue.truthy : JsValue → Bool
  | .str s => !(s == "")
  | .protoMember _ => true

/-- The string a template literal interpolates such a value as.  A string
interpolates as itself — the only case the pipeline reaches, since every
selected prompt is an own key of the mapping.  For an inherited member
the text is engine-dependent; the V8 renderings are used here (native
functions print their source stub, the `__proto__` object prints as
`[object Object]`). -/
def JsValue.interpolate : JsValue → String
  | .str s => s
  | .protoMember name =>
    if name == "__proto__" then "[object Object]"
    else "function " ++ name ++ "() \x7b [native code] \x7d"

/-- `explanationMapping[prompt]`: JS bracket access on the object
literal.  An own key yields its mapped string; otherwise the prototype
chain is consulted and an inherited `Object.prototype` member may be
found; only when both miss is the access `undefined` (`none`). -/
def jsObjectGet (obj : List (String × String)) (key : String) : Option JsValue :=
  match obj.lookup key with
  | some v => some (.str v)
  | none =>
    if key ∈ objectPrototypeKeys then some (.protoMember key) else none

/-- `return explanationMapping[prompt] || "execute a programming task";`
(src/index.js line 156).  JS `||` falls through on any falsy value
(`undefined`, or the empty string were one mapped); a truthy value — a
mapped non-empty string, or an inherited `Object.prototype` member found
via the prototype chain — is returned as-is. -/
def generateProblemExplanation (prompt : String) : JsValue :=
  match jsObjectGet explanationMapping prompt with
  | some v => if v.truthy then v else .str "execute a programming task"
  | none => .str "execute a programming task"

/-- `Math.floor(Math.random() * promptList.length)` with
`Math.random()` modelled as a rational `r` in `[0, 1)`. -/
def selectPromptIndex (r : ℚ) : ℤ := Int.floor (r * (promptList.length : ℚ))

/-- `promptList[Math.floor(Math.random() * promptList.length)]`
(src/index.js line 44). -/
def selectPrompt (r : ℚ) : String := promptList.getD (selectPromptIndex r).toNat ""

/-- One entry of `response.data.choices`: the generated `text` field,
which may be absent from a malformed body. -/
structure OpenAIChoice where
  text : Option String
deriving DecidableEq

/-- The body `response.data` of a (transport-successful) completion
response: its `choices` array. -/
structure OpenAIData where
  choices : List OpenAIChoice
deriving DecidableEq

/-- The access `response.data.choices[0].text`: `none` when `choices` is
empty or the first choice has no `text` field (in JS this access throws a
TypeError, caught by the surrounding try/catch). -/
def extractSnippetText (d : OpenAIData) : Option String :=
  match d.choices with
  | [] => none
  | c :: _ => c.text

/-- `const PLACEHOLDER_IMAGE_API = "https://via.placeholder.com/800x400.png?text=";`
(src/index.js line 20). -/
def PLACEHOLDER_IMAGE_API : String := "https://via.placeholder.com/800x400.png?text="

/-- Hex digit (uppercase) for a value below 16, used by percent-encoding. -/
def hexUpper (n : Nat) : Char := if n < 10 then Char.ofNat (48 + n) else Char.ofNat (55 + n)

/-- UTF-8 bytes of one character (code point arithmetic). -/
def utf8Bytes (c : Char) : List Nat :=
  let n := c.toNat
  if n < 128 then [n]
  else if n < 2048 then [192 + n / 64, 128 + n % 64]
  else if n < 65536 then [224 + n / 4096, 128 + (n / 64) % 64, 128 + n % 64]
  else [240 + n / 262144, 128 + (n / 4096) % 64, 128 + (n / 64) % 64, 128 + n % 64]

/-- The characters `encodeURIComponent` leaves unescaped:
`A-Z a-z 0-9 - _ . ! ~ * ' ( )`. -/
def isUriUnreservedJs (c : Char) : Bool :=
  (decide ('A' ≤ c) && decide (c ≤ 'Z')) ||
  (decide ('a' ≤ c) && decide (c ≤ 'z')) ||
  (decide ('0' ≤ c) && decide (c ≤ '9')) ||
  (c == '-') || (c == '_') || (c == '.') || (c == '!') ||
  (c == '~') || (c == '*') || (c.toNat == 39) || (c == '(') || (c == ')')

/-- Percent-encoding of a byte list: `%XY` per byte, uppercase hex. -/
def percentEncodeBytes (bs : List Nat) : List Char :=
  bs.foldr (fun b acc => '%' :: hexUpper (b / 16) :: hexUpper (b % 16) :: acc) []

/-- JS `encodeURIComponent`. -/
def encodeURIComponent (s : String) : String :=
  String.mk (s.data.foldr
    (fun c acc =>
      if isUriUnreservedJs c then c :: acc
      else percentEncodeBytes (utf8Bytes c) ++ acc)
    [])

/-- One content block of the persisted document's `body` array: either a
`block` with a single span of text, or the `code` block with its `title`,
`code` and `language` fields. -/
inductive BodyBlock where
  | text (t : String)
  | code (title code language : String)
deriving DecidableEq

/-- The document passed to `client.create` (src/index.js lines 85-131):
title, `slug.current`, the author reference, the uploaded image asset
reference (or `null`), the category references, `publishedAt`, and the
ordered `body` blocks. -/
structure SanityDocument where
  title : String
  slugCurrent : String
  authorRef : String
  mainImageAsset : Option String
  categoryRefs : List String
  publishedAt : String
  body : List BodyBlock
deriving DecidableEq

/-- The environment of one pipeline invocation: configured ids, the
ambient date/uuid/random values, and the outcomes of the three external
calls (completion request, image fetch, asset upload).  A transport
error, a non-success HTTP status, or any other axios rejection is an
`Except.error`. -/
structure PipelineEnv where
  authorId : String
  categoryId : String
  dateStr : String
  nowIso : String
  uuid : String
  randomVal : ℚ
  openaiResult : Except Unit OpenAIData
  fetchImage : String → Except Unit (List Nat)
  uploadAsset : List Nat → String → Except Unit String

/-- `uploadImageToSanity` (src/index.js lines 160-173): fetch the image
bytes, upload them under the filename `code-snippet-<uuid>.png`, and
return the asset id; any error at either stage is caught and yields
`null` (`none`). -/
def uploadImageToSanity (env : PipelineEnv) (imageUrl : String) : Option String :=
  match env.fetchImage imageUrl with
  | .error _ => none
  | .ok bytes =>
    match env.uploadAsset bytes ("code-snippet-" ++ env.uuid ++ ".png") with
    | .error _ => none
    | .ok assetId => some assetId

/-- `createSanityPost` (src/index.js lines 78-138): builds the document
and passes it to `client.create`.  The returned value is that document;
nothing before the `create` call can throw (the image upload catches its
own errors), so the call always occurs once this function is entered. -/
def createSanityPost (env : PipelineEnv) (title snippet problemExplanation : String) :
    SanityDocument :=
  let slug := generateSlug title
  let imageUrl := PLACEHOLDER_IMAGE_API ++ encodeURIComponent title
  ⟨title, slug, env.authorId, uploadImageToSanity env imageUrl, [env.categoryId],
   env.nowIso,
   [BodyBlock.text "ðŸŒŸ Hereâ€™s Todayâ€™s Code Snippet! ðŸŒŸ",
    BodyBlock.text "ðŸ‘‹ Hello, developers! Ready to level up? Check out todayâ€™s code snippet below.",
    BodyBlock.code "Code Snippet" snippet "javascript",
    BodyBlock.text ("ðŸ§  Whatâ€™s happening here? This snippet demonstrates how to "
      ++ problemExplanation ++ "."),
    BodyBlock.text "ðŸ’¬ Got questions? Share your thoughts below!"]⟩

/-- `generateCodeSnippet` (src/index.js lines 41-75): select a prompt,
call the completions API, extract and trim the text, build the title and
explanation, and create the post.  Any error before `createSanityPost`
(transport failure, non-success response, missing `choices[0].text`)
falls into the catch block: the invocation ends with no create call
(`none`).  `some doc` means `client.create` was called with `doc`. -/
def generateCodeSnippet (env : PipelineEnv) : Option SanityDocument :=
  match env.openaiResult with
  | .error _ => none
  | .ok data =>
    match extractSnippetText data with
    | none => none
    | some raw =>
      let snippet := jsTrim raw
      let randomPrompt := selectPrompt env.randomVal
      let uniqueTitle := (randomPrompt.splitOn " ").getD 1 "undefined" ++ " Example - " ++ env.dateStr
      let problemExplanation := generateProblemExplanation randomPrompt
      some (createSanityPost env uniqueTitle snippet problemExplanation.interpolate)

/-- The `code` fields of the code blocks of a body. -/
def bodyCodes (body : List BodyBlock) : List String :=
  body.filterMap (fun b => match b with
    | BodyBlock.code _ c _ => some c
    | BodyBlock.text _ => none)

/-- The `uniqueTitle` built by a pipeline invocation (src/index.js line 65):
`` `${randomPrompt.split(' ')[1]} Example - ${new Date().toLocaleDateString()}` ``. -/
def runTitle (env : PipelineEnv) : String :=
  ((selectPrompt env.randomVal).splitOn " ").getD 1 "undefined" ++ " Example - " ++ env.dateStr

/-- The placeholder-image URL an invocation fetches (src/index.js line 83). -/
def runImageUrl (env : PipelineEnv) : String :=
  PLACEHOLDER_IMAGE_API ++ encodeURIComponent (runTitle env)

/-- The filename under which an invocation uploads the image
(src/index.js line 166). -/
def runFilename (env : PipelineEnv) : String := "code-snippet-" ++ env.uuid ++ ".png"

/-! ## Helper lemmas -/

lemma lookup_eq_none_of_not_mem_keys {α β : Type} [BEq α] [LawfulBEq α]
    {l : List (α × β)} {a : α}
    (h : a ∉ l.map Prod.fst) : l.lookup a = none := by
  refine List.lookup_eq_none_iff.mpr ?_
  intro p hp
  have hne : a ≠ p.1 := by
    intro he
    rw [he] at h
    exact h (List.mem_map_of_mem Prod.fst hp)
  simpa [bne_iff_ne] using hne

lemma mem_of_lookup_eq_some {α β : Type} [BEq α] [LawfulBEq α]
    {l : List (α × β)} {a : α} {b : β}
    (h : l.lookup a = some b) : (a, b) ∈ l := by
  obtain ⟨l₁, l₂, rfl, -⟩ := List.lookup_eq_some_iff.mp h
  exact List.mem_append.mpr (Or.inr (List.mem_cons_self _ _))

lemma snd_not_upper : ∀ p ∈ asciiLowerMap, p.2 ∉ asciiUpperChars := by decide

lemma jsCharToLower_not_mem_upper (c : Char) : jsCharToLower c ∉ asciiUpperChars := by
  unfold jsCharToLower
  cases h : asciiLowerMap.lookup c with
  | none =>
    simp only [Option.getD_none]
    intro hc
    have hs : (asciiLowerMap.lookup c).isSome := by
      refine List.lookup_isSome_iff.mpr ?_
      simp only [asciiUpperChars] at hc
      obtain ⟨p, hp, hpc⟩ := List.mem_map.mp hc
      exact ⟨p, hp, by simp [hpc]⟩
    rw [h] at hs
    exact absurd hs (by simp)
  | some v =>
    simp only [Option.getD_some]
    exact snd_not_upper _ (mem_of_lookup_eq_some h)

lemma jsCharToLower_fixed {c : Char} (h : c ∉ asciiUpperChars) : jsCharToLower c = c := by
  unfold jsCharToLower
  rw [lookup_eq_none_of_not_mem_keys h]
  rfl

lemma mem_collapseWsAux : ∀ (l : List Char) (b : Bool) (c : Char),
    c ∈ collapseWsAux l b → c = '-' ∨ c ∈ l := by
  intro l
  induction l with
  | nil => intro b c h; simp [collapseWsAux] at h
  | cons d t ih =>
    intro b c h
    by_cases hw : isJsWhitespace d
    · by_cases hb : b = true
      · subst hb
        simp only [collapseWsAux, hw, if_true] at h
        rcases ih true c h with h1 | h1
        · exact Or.inl h1
        · exact Or.inr (List.mem_cons_of_mem d h1)
      · have hb' : b = false := by
          cases b
          · rfl
          · exact absurd rfl hb
        subst hb'
        simp only [collapseWsAux, hw, if_true] at h
        rcases List.mem_cons.mp h with h1 | h1
        · exact Or.inl h1
        · rcases ih true c h1 with h2 | h2
          · exact Or.inl h2
          · exact Or.inr (List.mem_cons_of_mem d h2)
    · have hw' : isJsWhitespace d = false := by
        cases hwd : isJsWhitespace d
        · rfl
        · exact absurd hwd hw
      simp only [collapseWsAux, hw', Bool.false_eq_true, if_false] at h
      rcases List.mem_cons.mp h with h1 | h1
      · exact Or.inr (h1 ▸ List.mem_cons_self d t)
      · rcases ih false c h1 with h2 | h2
        · exact Or.inl h2
        · exact Or.inr (List.mem_cons_of_mem d h2)

lemma collapseWsAux_eq_self : ∀ (l : List Char),
    (∀ c ∈ l, isJsWhitespace c = false) → ∀ b, collapseWsAux l b = l := by
  intro l
  induction l with
  | nil => intro _ b; rfl
  | cons d t ih =>
    intro h b
    have hd : isJsWhitespace d = false := h d (List.mem_cons_self d t)
    simp only [collapseWsAux, hd, Bool.false_eq_true, if_false]
    rw [ih (fun c hc => h c (List.mem_cons_of_mem d hc)) false]

lemma map_eq_self_of_fixed : ∀ (l : List Char) (f : Char → Char),
    (∀ c ∈ l, f c = c) → l.map f = l := by
  intro l f
  induction l with
  | nil => intro _; rfl
  | cons d t ih =>
    intro h
    simp only [List.map_cons]
    rw [h d (List.mem_cons_self d t), ih (fun c hc => h c (List.mem_cons_of_mem d hc))]

lemma ws_not_slugKeep {c : Char} (h : isJsWhitespace c = true) : isSlugKeep c = false := by
  have hc : c ∈ jsWhitespaceChars := by
    simpa [isJsWhitespace, List.contains] using h
  fin_cases hc <;> decide

lemma slugKeep_not_ws {c : Char} (h : isSlugKeep c = true) : isJsWhitespace c = false := by
  cases hw : isJsWhitespace c with
  | false => rfl
  | true =>
    rw [ws_not_slugKeep hw] at h
    exact absurd h (by simp)

lemma slug_chars (T : String) :
    ∀ c ∈ (generateSlug T).data, isSlugKeep c = true ∧ c ∉ asciiUpperChars := by
  intro c hc
  have hc' : c ∈ (collapseWsAux (T.data.map jsCharToLower) false).filter isSlugKeep := hc
  have hmem := List.mem_filter.mp hc'
  refine ⟨hmem.2, ?_⟩
  rcases mem_collapseWsAux _ _ _ hmem.1 with h1 | h1
  · subst h1; decide
  · obtain ⟨c', hc'', rfl⟩ := List.mem_map.mp h1
    exact jsCharToLower_not_mem_upper c'

/-! ## Claim theorems -/

/-- Claim C3: for every title string `T`, `generateSlug T` is lowercase
(contains no uppercase ASCII letter), contains no whitespace character,
contains only word characters and hyphens, and `generateSlug` is a pure
deterministic function of `T` (in this embedding it is a function, so the
same `T` always yields the same slug). -/
theorem slug_normal_form (T : String) :
    ((generateSlug T).data.all fun c =>
      !(decide (c ∈ asciiUpperChars)) && !(isJsWhitespace c) && isSlugKeep c) = true ∧
    generateSlug T = generateSlug T := by
  refine ⟨?_, rfl⟩
  rw [List.all_eq_true]
  intro c hc
  obtain ⟨hkeep, hup⟩ := slug_chars T c hc
  have hws := slugKeep_not_ws hkeep
  simp [hkeep, hws, hup]

/-- Claim C9: the slug generator is idempotent: for every string `T`,
`generateSlug (generateSlug T) = generateSlug T`. -/
theorem slug_idempotent (T : String) : generateSlug (generateSlug T) = generateSlug T := by
  have hchars := slug_chars T
  have hmap : (generateSlug T).data.map jsCharToLower = (generateSlug T).data :=
    map_eq_self_of_fixed _ _ (fun c hc => jsCharToLower_fixed (hchars c hc).2)
  have hnws : ∀ c ∈ (generateSlug T).data, isJsWhitespace c = false :=
    fun c hc => slugKeep_not_ws (hchars c hc).1
  have hcoll : collapseWsAux (generateSlug T).data false = (generateSlug T).data :=
    collapseWsAux_eq_self _ hnws false
  have hfilt : (generateSlug T).data.filter isSlugKeep = (generateSlug T).data :=
    List.filter_eq_self.mpr (fun c hc => (hchars c hc).1)
  show String.mk
      ((collapseWsAux ((generateSlug T).data.map jsCharToLower) false).filter isSlugKeep)
    = generateSlug T
  rw [hmap, hcoll, hfilt]

/-- Claim C1: if the text-generation call fails in any way (transport
error or non-success response, both `Except.error`, or a response body
without the expected `choices[0].text` field), then the invocation
produces no document-create call: `generateCodeSnippet` returns `none`,
so no partial post is created. -/
theorem snippet_failure_aborts (env : PipelineEnv)
    (h : (∃ e, env.openaiResult = .error e) ∨
         (∃ d, env.openaiResult = .ok d ∧ extractSnippetText d = none)) :
    generateCodeSnippet env = none := by
  unfold generateCodeSnippet
  rcases h with ⟨e, he⟩ | ⟨d, hd, hex⟩
  · rw [he]
  · simp only [hd, hex]

/-- Witness for Claim C1 at a concrete environment whose completion call
failed with a transport error. -/
theorem snippet_failure_aborts_witness :
    generateCodeSnippet
      ⟨"author", "category", "1/1/2025", "2025-01-01T00:00:00.000Z", "uuid", 0,
       .error (), fun _ => .error (), fun _ _ => .error ()⟩ = none :=
  snippet_failure_aborts _ (Or.inl ⟨(), rfl⟩)

/-- Claim C2: if the image fetch or the image upload fails, the
image-acquisition step yields a null asset reference (`none`) instead of
propagating the error, the document-create call still occurs (the
invocation still returns `some` document), and the persisted post's image
asset reference is null. -/
theorem image_failure_degrades (env : PipelineEnv)
    (h : (∃ e, env.fetchImage (runImageUrl env) = .error e) ∨
         (∃ bytes e, env.fetchImage (runImageUrl env) = .ok bytes ∧
            env.uploadAsset bytes (runFilename env) = .error e)) :
    uploadImageToSanity env (runImageUrl env) = none ∧
    (∀ d raw, env.openaiResult = .ok d → extractSnippetText d = some raw →
      ∃ doc, generateCodeSnippet env = some doc ∧ doc.mainImageAsset = none) := by
  have hup : uploadImageToSanity env (runImageUrl env) = none := by
    unfold uploadImageToSanity
    rcases h with ⟨e, he⟩ | ⟨bytes, e, hb, hu⟩
    · rw [he]
    · simp only [runFilename] at hu
      simp only [hb, hu]
  refine ⟨hup, ?_⟩
  intro d raw hd hraw
  refine ⟨createSanityPost env (runTitle env) (jsTrim raw)
    (generateProblemExplanation (selectPrompt env.randomVal)).interpolate, ?_, ?_⟩
  · unfold generateCodeSnippet
    simp only [hd, hraw]
    rfl
  · exact hup

/-- Witness for Claim C2 at a concrete environment whose image fetch
fails while the completion call succeeded. -/
theorem image_failure_degrades_witness :
    uploadImageToSanity
      ⟨"author", "category", "1/1/2025", "2025-01-01T00:00:00.000Z", "uuid", 0,
       .ok ⟨[⟨some " code "⟩]⟩, fun _ => .error (), fun _ _ => .error ()⟩
      (runImageUrl
        ⟨"author", "category", "1/1/2025", "2025-01-01T00:00:00.000Z", "uuid", 0,
         .ok ⟨[⟨some " code "⟩]⟩, fun _ => .error (), fun _ _ => .error ()⟩) = none ∧
    (∀ d raw,
      (PipelineEnv.openaiResult
        ⟨"author", "category", "1/1/2025", "2025-01-01T00:00:00.000Z", "uuid", 0,
         .ok ⟨[⟨some " code "⟩]⟩, fun _ => .error (), fun _ _ => .error ()⟩) = .ok d →
      extractSnippetText d = some raw →
      ∃ doc, generateCodeSnippet
        ⟨"author", "category", "1/1/2025", "2025-01-01T00:00:00.000Z", "uuid", 0,
         .ok ⟨[⟨some " code "⟩]⟩, fun _ => .error (), fun _ _ => .error ()⟩ = some doc ∧
        doc.mainImageAsset = none) :=
  image_failure_degrades _ (Or.inl ⟨(), rfl⟩)

/-- Claim C5: every document passed to the create operation has a body of
exactly five blocks in this order: the opening announcement text block,
the greeting text block, the code block carrying the snippet with its
language tag fixed to `javascript` regardless of the snippet, the
explanation text block interpolating the resolved explanation string, and
the closing call-to-action text block. -/
theorem post_body_template (env : PipelineEnv) (title snippet pe : String) :
    (createSanityPost env title snippet pe).body =
      [BodyBlock.text "ðŸŒŸ Hereâ€™s Todayâ€™s Code Snippet! ðŸŒŸ",
       BodyBlock.text "ðŸ‘‹ Hello, developers! Ready to level up? Check out todayâ€™s code snippet below.",
       BodyBlock.code "Code Snippet" snippet "javascript",
       BodyBlock.text ("ðŸ§  Whatâ€™s happening here? This snippet demonstrates how to "
         ++ pe ++ "."),
       BodyBlock.text "ðŸ’¬ Got questions? Share your thoughts below!"] := rfl

/-- Claim C6: in every document passed to the create operation, the slug
field equals the slug generator applied to that document's own title
field. -/
theorem slug_derived_from_title (env : PipelineEnv) (title snippet pe : String) :
    (createSanityPost env title snippet pe).slugCurrent =
      generateSlug (createSanityPost env title snippet pe).title := rfl

/-- Claim C7: when the completion call succeeds with text `raw`, the
created document's code block carries exactly `jsTrim raw`, the returned
text trimmed of surrounding whitespace. -/
theorem code_block_exact_snippet (env : PipelineEnv) (d : OpenAIData) (raw : String)
    (hd : env.openaiResult = .ok d) (hraw : extractSnippetText d = some raw) :
    ∃ doc, generateCodeSnippet env = some doc ∧ bodyCodes doc.body = [jsTrim raw] := by
  refine ⟨createSanityPost env (runTitle env) (jsTrim raw)
    (generateProblemExplanation (selectPrompt env.randomVal)).interpolate, ?_, rfl⟩
  unfold generateCodeSnippet
  simp only [hd, hraw]
  rfl

/-- Witness for Claim C7 at a concrete successful completion response. -/
theorem code_block_exact_snippet_witness :
    ∃ doc, generateCodeSnippet
      ⟨"author", "category", "1/1/2025", "2025-01-01T00:00:00.000Z", "uuid", 0,
       .ok ⟨[⟨some " console.log(1) "⟩]⟩, fun _ => .error (), fun _ _ => .error ()⟩
      = some doc ∧ bodyCodes doc.body = [jsTrim " console.log(1) "] :=
  code_block_exact_snippet _ ⟨[⟨some " console.log(1) "⟩]⟩ " console.log(1) " rfl rfl

/-- Counterexample to Claim C4 as stated: `"toString"` is not in the
fixed prompt list, yet the resolver does not return the fallback string —
bracket access finds the truthy inherited `Object.prototype.toString`
member on the prototype chain and returns it. -/
theorem explanation_resolver_fallback_counterexample :
    "toString" ∉ promptList ∧
    generateProblemExplanation "toString" ≠ JsValue.str "execute a programming task" :=
  ⟨by decide, by decide⟩

/-- Claim C4 (amended): for every prompt with a mapped explanation the
resolver returns exactly that one mapped string; for every string not in
the fixed prompt list (whose entries are exactly the mapping's own keys),
it returns the single fixed fallback string unless the string names an
inherited `Object.prototype` member, in which case bracket access finds
that truthy member on the prototype chain and the resolver returns it
instead of the fallback. -/
theorem explanation_resolver_total (p : String) :
    (∀ e, (p, e) ∈ explanationMapping → generateProblemExplanation p = JsValue.str e) ∧
    (p ∉ promptList → p ∉ objectPrototypeKeys →
      generateProblemExplanation p = JsValue.str "execute a programming task") ∧
    (p ∉ promptList → p ∈ objectPrototypeKeys →
      generateProblemExplanation p = JsValue.protoMember p) := by
  have hkeys : explanationMapping.map Prod.fst = promptList := rfl
  refine ⟨?_, ?_, ?_⟩
  · intro e he
    fin_cases he <;> rfl
  · intro hp hproto
    have hnone : explanationMapping.lookup p = none := by
      apply lookup_eq_none_of_not_mem_keys
      rw [hkeys]
      exact hp
    have hget : jsObjectGet explanationMapping p = none := by
      unfold jsObjectGet
      rw [hnone, if_neg hproto]
    unfold generateProblemExplanation
    simp only [hget]
  · intro hp hproto
    have hnone : explanationMapping.lookup p = none := by
      apply lookup_eq_none_of_not_mem_keys
      rw [hkeys]
      exact hp
    have hget : jsObjectGet explanationMapping p = some (.protoMember p) := by
      unfold jsObjectGet
      rw [hnone, if_pos hproto]
    unfold generateProblemExplanation
    simp only [hget, JsValue.truthy, if_true]

/-- Witness for Claim C4 (amended) at a mapped prompt, at an unmapped
plain string, and at an unmapped string naming an inherited
`Object.prototype` member. -/
theorem explanation_resolver_total_witness :
    generateProblemExplanation "Write a JavaScript function to reverse a string."
      = JsValue.str "reverse a string" ∧
    generateProblemExplanation "not a prompt"
      = JsValue.str "execute a programming task" ∧
    generateProblemExplanation "valueOf" = JsValue.protoMember "valueOf" :=
  ⟨(explanation_resolver_total _).1 _ (by decide),
   (explanation_resolver_total _).2.1 (by decide) (by decide),
   (explanation_resolver_total _).2.2 (by decide) (by decide)⟩

/-- Claim C10: every element of the fixed prompt list is a key of the
explanation mapping with a non-empty mapped string, so for every prompt
the selector can produce, the resolver returns the mapped explanation and
its fallback branch (including the empty-string falsy case of JS `||`) is
unreachable within the pipeline. -/
theorem prompt_list_fully_mapped (p : String) (hp : p ∈ promptList) :
    ∃ e, explanationMapping.lookup p = some e ∧ e ≠ "" ∧
      generateProblemExplanation p = JsValue.str e := by
  fin_cases hp <;> exact ⟨_, rfl, by decide, rfl⟩

/-- Witness for Claim C10 at a concrete prompt of the list. -/
theorem prompt_list_fully_mapped_witness :
    ∃ e, explanationMapping.lookup "Create a batch script to automate file backups."
        = some e ∧ e ≠ "" ∧
      generateProblemExplanation "Create a batch script to automate file backups."
        = JsValue.str e :=
  prompt_list_fully_mapped _ (by decide)

/-- Claim C8: for every uniformly random value `r` in `[0,1)`, the
computed index is within the prompt list's bounds and the selector
returns an element of the list; moreover, for each index `i`, the set of
values of `r` in `[0,1)` selecting index `i` is exactly the interval
`[i/10, (i+1)/10)`, and all these intervals have the same length `1/10`,
so each of the ten entries is returned with equal (uniform)
probability. -/
theorem prompt_selector_uniform :
    (∀ r : ℚ, 0 ≤ r → r < 1 →
      (selectPromptIndex r).toNat < promptList.length ∧ selectPrompt r ∈ promptList) ∧
    (∀ i : ℕ, i < promptList.length →
      {r : ℚ | 0 ≤ r ∧ r < 1 ∧ (selectPromptIndex r).toNat = i}
        = Set.Ico (((i : ℕ) : ℚ) / 10) ((((i : ℕ) : ℚ) + 1) / 10)) ∧
    (∀ i : ℕ, i < promptList.length →
      (((i : ℕ) : ℚ) + 1) / 10 - ((i : ℕ) : ℚ) / 10 = 1 / 10) := by
  have hlenQ : (promptList.length : ℚ) = 10 := by norm_num [promptList]
  have hidx : ∀ r : ℚ, selectPromptIndex r = ⌊r * 10⌋ := by
    intro r
    unfold selectPromptIndex
    rw [hlenQ]
  refine ⟨?_, ?_, ?_⟩
  · intro r h0 h1
    have hfl0 : (0 : ℤ) ≤ ⌊r * 10⌋ :=
      Int.floor_nonneg.mpr (mul_nonneg h0 (by norm_num))
    have hfl10 : ⌊r * 10⌋ < 10 := Int.floor_lt.mpr (by push_cast; linarith)
    have hlenN : promptList.length = 10 := rfl
    have hlt : (selectPromptIndex r).toNat < promptList.length := by
      rw [hidx r, hlenN]
      omega
    refine ⟨hlt, ?_⟩
    unfold selectPrompt
    rw [List.getD_eq_getElem?_getD, List.getElem?_eq_getElem hlt]
    exact List.getElem_mem hlt
  · intro i hi
    have hi10 : i < 10 := hi
    ext r
    simp only [Set.mem_setOf_eq, Set.mem_Ico]
    constructor
    · rintro ⟨h0, h1, hieq⟩
      rw [hidx r] at hieq
      have hfl0 : (0 : ℤ) ≤ ⌊r * 10⌋ :=
        Int.floor_nonneg.mpr (mul_nonneg h0 (by norm_num))
      have hf : ⌊r * 10⌋ = (i : ℤ) := by omega
      have hb := Int.floor_eq_iff.mp hf
      push_cast at hb
      constructor
      · linarith [hb.1]
      · linarith [hb.2]
    · rintro ⟨hl, hr⟩
      have hiQ : ((i : ℕ) : ℚ) + 1 ≤ 10 := by
        have : ((i : ℕ) : ℚ) ≤ 9 := by exact_mod_cast Nat.le_of_lt_succ hi10
        linarith
      have h0 : 0 ≤ r := le_trans (by positivity) hl
      have h1 : r < 1 := lt_of_lt_of_le hr (by linarith)
      refine ⟨h0, h1, ?_⟩
      rw [hidx r]
      have hf : ⌊r * 10⌋ = (i : ℤ) :=
        Int.floor_eq_iff.mpr ⟨by push_cast; linarith, by push_cast; linarith⟩
      rw [hf]
      exact Int.toNat_natCast i
  · intro i _
    ring

/-- Witness for Claim C8 at the concrete random value `1/2` and the
concrete index `3`. -/
theorem prompt_selector_uniform_witness :
    ((selectPromptIndex (1/2)).toNat < promptList.length ∧
      selectPrompt (1/2) ∈ promptList) ∧
    ({r : ℚ | 0 ≤ r ∧ r < 1 ∧ (selectPromptIndex r).toNat = 3}
      = Set.Ico (((3 : ℕ) : ℚ) / 10) ((((3 : ℕ) : ℚ) + 1) / 10)) ∧
    ((((3 : ℕ) : ℚ) + 1) / 10 - ((3 : ℕ) : ℚ) / 10 = 1 / 10) :=
  ⟨prompt_selector_uniform.1 (1/2) (by norm_num) (by norm_num),
   prompt_selector_uniform.2.1 3 (by decide),
   prompt_selector_uniform.2.2 3 (by decide)⟩
